import Mathlib

/-!
Shallow embedding of the content-pipeline orchestrator of the
Linkedin-Automatic-Poster repository, and proofs about the claims of the spec.

Two scheduler implementations exist in the repository:
* `scheduler.py` (rotation-based, namespace `Sched` below), and
* `src/scheduler.py` (APScheduler job-table based, namespace `Sched2` below).

Collaborator behaviour (LLM, MCP server, LinkedIn API) is passed in as
explicit parameters, matching the points where the Python code consults the
network.
-/

/-! ## Python string helpers -/

/-- Python `topic.replace(' ', '')`: delete every space. -/
def removeSpaces (s : String) : String := String.mk (s.data.filter (fun c => c ≠ ' '))

/-- Python `topic.replace(' ', '_')`: replace every space by an underscore. -/
def spacesToUnderscores (s : String) : String :=
  String.mk (s.data.map (fun c => if c = ' ' then '_' else c))

/-- Python `s.lower()` (ASCII case folding, which covers the topic strings
of the repository). -/
def pyLower (s : String) : String := String.mk (s.data.map Char.toLower)

/-- A single-quote character, as used by Python `str()` of a `dict`. -/
def squote : String := String.singleton (Char.ofNat 39)

/-- Python `repr` of a string value free of quotes/escapes (the only strings
this pipeline constructs): the text between single quotes. -/
def pyReprStr (s : String) : String := squote ++ s ++ squote

/-- Python `repr` of a list of such strings. -/
def pyReprList (xs : List String) : String :=
  "[" ++ String.intercalate ", " (xs.map pyReprStr) ++ "]"

/-- Python slice `s[a:b]` (character indices, `a ≤ b`). -/
def pySlice (s : String) (a b : Nat) : String := String.mk ((s.data.drop a).take (b - a))

/-- Python slice `s[-n:]`: the last `n` characters (the whole string if shorter). -/
def pyLastChars (s : String) (n : Nat) : String :=
  String.mk (s.data.drop (s.data.length - n))

/-- Contiguous-sublist test, used to model Python `needle in haystack` on strings. -/
def subListOf (needle : List Char) : List Char → Bool
  | [] => needle.isEmpty
  | c :: t => needle.isPrefixOf (c :: t) || subListOf needle t

/-- Python `needle in hay` for strings: contiguous substring test. -/
def pyInStr (needle hay : String) : Bool := subListOf needle.data hay.data

/-- Python truthiness of an optional string (a missing/`None`/empty value is falsy). -/
def pyTruthy : Option String → Bool
  | none => false
  | some s => decide (s ≠ "")

namespace Sched

/-! ## `scheduler.py`: rotation state -/

/-- The rotation-relevant fields of `LinkedInScheduler`
(`scheduler.py:40-46`): the topic list, the content-type list and the two
rotation cursors. -/
structure SchedulerState where
  topics : List String
  content_types : List String
  topic_index : Nat
  content_type_index : Nat
deriving Repr, DecidableEq

/-- The `config.set` calls issued by the rotation operations of
`scheduler.py`: `content.topics` (from `add_topic`/`remove_topic`) and
`content.current_topic` (from `rotate_topic`/`set_current_topic`).  No call
site in `scheduler.py` ever writes `topic_index` or `content_type_index` to
the config. `Config.set` saves the configuration file synchronously
(`config.py:96-107`), so each write is a synchronous persist of that key. -/
inductive ConfigWrite
  | setTopics (ts : List String)
  | setCurrentTopic (t : String)
deriving Repr, DecidableEq

/-- `LinkedInScheduler.get_current_topic` (`scheduler.py:277-281`).  The
Python method resets `self.topic_index` to 0 when it is out of range and then
indexes `self.topics`; the returned pair is (returned topic, state after the
reset).  Indexing an empty list would raise in Python; the embedding returns
`""` there, and all theorems below assume a non-empty list. -/
def get_current_topic (s : SchedulerState) : String × SchedulerState :=
  let s' := if s.topics.length ≤ s.topic_index then { s with topic_index := 0 } else s
  (s'.topics.getD s'.topic_index "", s')

/-- `LinkedInScheduler.get_current_content_type` (`scheduler.py:283-287`). -/
def get_current_content_type (s : SchedulerState) : String × SchedulerState :=
  let s' :=
    if s.content_types.length ≤ s.content_type_index then
      { s with content_type_index := 0 }
    else s
  (s'.content_types.getD s'.content_type_index "", s')

/-- `LinkedInScheduler.rotate_content_type` (`scheduler.py:289-292`):
`content_type_index = (content_type_index + 1) % len(content_types)`.
It issues no `config.set` call. -/
def rotate_content_type (s : SchedulerState) : SchedulerState × List ConfigWrite :=
  ({ s with content_type_index := (s.content_type_index + 1) % s.content_types.length }, [])

/-- `LinkedInScheduler.rotate_topic` (`scheduler.py:294-301`): advance the
topic cursor modulo the length, read the new current topic (which may clamp),
and persist it under `content.current_topic`. -/
def rotate_topic (s : SchedulerState) : SchedulerState × List ConfigWrite :=
  let s1 := { s with topic_index := (s.topic_index + 1) % s.topics.length }
  let r := get_current_topic s1
  (r.2, [ConfigWrite.setCurrentTopic r.1])

/-- `LinkedInScheduler.add_topic` (`scheduler.py:352-357`): append when absent
and persist the topics list; otherwise do nothing. -/
def add_topic (s : SchedulerState) (topic : String) : SchedulerState × List ConfigWrite :=
  if topic ∈ s.topics then (s, [])
  else ({ s with topics := s.topics ++ [topic] },
        [ConfigWrite.setTopics (s.topics ++ [topic])])

/-- `LinkedInScheduler.remove_topic` (`scheduler.py:359-369`): remove the
first occurrence when present and not the last topic, persist the topics
list, and reset the topic cursor to 0 when it falls out of range.  Otherwise
the call does nothing. -/
def remove_topic (s : SchedulerState) (topic : String) : SchedulerState × List ConfigWrite :=
  if topic ∈ s.topics ∧ 1 < s.topics.length then
    let ts := s.topics.erase topic
    let idx := if ts.length ≤ s.topic_index then 0 else s.topic_index
    ({ s with topics := ts, topic_index := idx }, [ConfigWrite.setTopics ts])
  else (s, [])

/-- The error vocabulary the spec uses for rotation misuse. -/
inductive SchedulerError
  | lastTopicError
  | emptyRotationError
deriving Repr, DecidableEq

/-- `LinkedInScheduler.remove_topic` with an explicit failure channel.  The
Python method body (`scheduler.py:359-369`) contains no `raise` statement and
no error class at all, so the embedding always returns `Except.ok`; the
`Except` codomain is present only so the `LastTopicError` outcome claimed
by the spec is expressible. -/
def remove_topicE (s : SchedulerState) (topic : String) :
    Except SchedulerError (SchedulerState × List ConfigWrite) :=
  Except.ok (remove_topic s topic)

/-- The rotation-state operations named by the safety property of the spec. -/
inductive RotOp
  | addTopic (t : String)
  | removeTopic (t : String)
  | rotateContentType
  | rotateTopic
deriving Repr, DecidableEq

/-- State effect of one rotation operation (persist calls dropped). -/
def applyOp (s : SchedulerState) : RotOp → SchedulerState
  | .addTopic t => (add_topic s t).1
  | .removeTopic t => (remove_topic s t).1
  | .rotateContentType => (rotate_content_type s).1
  | .rotateTopic => (rotate_topic s).1

/-- Run a finite sequence of rotation operations. -/
def applyOps (s : SchedulerState) (ops : List RotOp) : SchedulerState :=
  ops.foldl applyOp s

/-- The persist calls of one rotation operation. -/
def opWrites (s : SchedulerState) : RotOp → List ConfigWrite
  | .addTopic t => (add_topic s t).2
  | .removeTopic t => (remove_topic s t).2
  | .rotateContentType => (rotate_content_type s).2
  | .rotateTopic => (rotate_topic s).2

/-- Steps 2-3 of `LinkedInScheduler.run_posting_job` (`scheduler.py:122-170`)
as far as rotation state is concerned: the method first reads the current
topic and content type (each read may clamp its cursor), then creates and
posts content (abstracted by the publish result flag `success`,
`result.get("success")`), and finally rotates the content type — and, with
probability 0.3 (`random.random() < 0.3`, abstracted by `coin`), the topic —
exactly when `success` holds.  On failure it only logs. -/
def run_posting_job (s : SchedulerState) (success coin : Bool) :
    SchedulerState × List ConfigWrite :=
  let s1 := (get_current_topic s).2
  let s2 := (get_current_content_type s1).2
  if success then
    let r3 := rotate_content_type s2
    if coin then
      let r4 := rotate_topic r3.1
      (r4.1, r3.2 ++ r4.2)
    else r3
  else (s2, [])

/-! ## Persistence model (`config.py`) -/

/-- The rotation-relevant keys of the persisted `config.json` document
(`config.py:39-45`): `content.topics`, `content.content_types`,
`content.current_topic`.  No key holds either cursor index. -/
structure PersistedConfig where
  topics : List String
  content_types : List String
  current_topic : String
deriving Repr, DecidableEq

/-- Effect of one `config.set` call on the persisted document
(`config.py:96-107`; `save_config` rewrites the file synchronously). -/
def applyWrite (p : PersistedConfig) : ConfigWrite → PersistedConfig
  | .setTopics ts => { p with topics := ts }
  | .setCurrentTopic t => { p with current_topic := t }

/-- Persisted document after a sequence of `config.set` calls. -/
def persistAfter (p : PersistedConfig) (ws : List ConfigWrite) : PersistedConfig :=
  ws.foldl applyWrite p

/-- Rotation state after a process restart (`LinkedInScheduler.__init__`,
`scheduler.py:44-46`): topics and content types are read back from the
config, but both cursors are initialised to the literal 0; no cursor value is
read from storage. -/
def restart (p : PersistedConfig) : SchedulerState :=
  { topics := p.topics
    content_types := p.content_types
    topic_index := 0
    content_type_index := 0 }

end Sched

/-! ## Article pipeline (`content_generator.py`, `mcp_client.py`,
`LinkedInScheduler.create_and_post_article`) -/

/-- A gathered source document (`web_scraper.gather_information` result
element).  Its content only flows into the abstracted LLM/MCP calls. -/
structure Source where
  title : String
  text : String
deriving Repr, DecidableEq

/-- The article dict produced by `ContentGenerator.generate_article_content`
(`content_generator.py:41-101`), with its six keys in insertion order. -/
structure ArticleContent where
  headline : String
  introduction : String
  main_points : List String
  takeaways : List String
  conclusion : String
  hashtags : List String
deriving Repr, DecidableEq

/-- Python `str()` of the article dict, with keys in insertion order.
Faithful for the quote-free strings this pipeline constructs. -/
def pyStrArticle (a : ArticleContent) : String :=
  "\x7b" ++ pyReprStr "headline" ++ ": " ++ pyReprStr a.headline ++
  ", " ++ pyReprStr "introduction" ++ ": " ++ pyReprStr a.introduction ++
  ", " ++ pyReprStr "main_points" ++ ": " ++ pyReprList a.main_points ++
  ", " ++ pyReprStr "takeaways" ++ ": " ++ pyReprList a.takeaways ++
  ", " ++ pyReprStr "conclusion" ++ ": " ++ pyReprStr a.conclusion ++
  ", " ++ pyReprStr "hashtags" ++ ": " ++ pyReprList a.hashtags ++ "\x7d"

/-- `ContentGenerator.generate_fallback_content` (`content_generator.py:459-476`):
the templated artifact substituted when content generation raises. -/
def generate_fallback_content (topic : String) : ArticleContent :=
  { headline := "Latest Insights on " ++ topic
    introduction := "Exploring the latest developments in " ++ topic ++
      " and their implications for the industry."
    main_points :=
      ["Current trends in " ++ topic ++ " are shaping the future",
       "Key players are investing heavily in " ++ topic ++ " technologies",
       "Market adoption of " ++ topic ++ " solutions is accelerating"]
    takeaways :=
      [topic ++ " is becoming increasingly important",
       "Organizations need to adapt to these changes",
       "Early adoption provides competitive advantages"]
    conclusion := "Stay informed about " ++ topic ++
      " developments to remain competitive in the market."
    hashtags := ["#" ++ removeSpaces topic, "#Technology", "#Innovation",
                 "#BusinessStrategy"] }

/-- Outcome of the LLM call made by
`ContentGenerator.generate_article_content`: a response that parses as JSON
(modelled as a full article record), a response that fails JSON parsing
(`json.JSONDecodeError` branch), or an exception. -/
inductive LLMOutcome
  | json (a : ArticleContent)
  | text (raw : String)
  | exn
deriving Repr

/-- `ContentGenerator.generate_article_content` (`content_generator.py:41-101`):
returns the parsed LLM response, or the slice-based fallback dict when JSON
parsing fails, or `generate_fallback_content` when the call raises. -/
def generate_article_content (_sources : List Source) (topic : String)
    (llm : LLMOutcome) : ArticleContent :=
  match llm with
  | .json a => a
  | .text response =>
    { headline := "Latest Insights on " ++ topic
      introduction := pySlice response 0 200 ++ "..."
      main_points := [pySlice response 200 400, pySlice response 400 600,
                      pySlice response 600 800]
      takeaways := ["Key insight 1", "Key insight 2", "Key insight 3"]
      conclusion := pyLastChars response 200
      hashtags := ["#" ++ removeSpaces topic, "#Technology", "#Innovation",
                   "#LinkedIn"] }
  | .exn => generate_fallback_content topic

/-- Body of a successful `/enhance` MCP response as read by
`create_and_post_article`: only the `enhanced_content` key is consulted
(`.get`, so missing is `none`).  The `confidence` float field of the fallback
is read by no caller and is omitted. -/
structure MCPEnhanceResult where
  enhanced_content : Option String
  improvements : List String
  origin : String
deriving Repr, DecidableEq

/-- `MCPClient.create_fallback_enhancement` (`mcp_client.py:336-347`): echoes
the content string back unchanged as `enhanced_content`. -/
def create_fallback_enhancement (content : String) (_topic : String) : MCPEnhanceResult :=
  { enhanced_content := some content
    improvements := ["Content enhanced for LinkedIn audience",
                     "Added professional tone", "Improved readability"]
    origin := "fallback" }

/-- Outcome of one HTTP request: a 200 response with parsed body, a non-200
status, or a raised exception (timeout, connection error, ...). -/
inductive HTTPOutcome (α : Type)
  | ok (body : α)
  | badStatus
  | exn
deriving Repr, DecidableEq

/-- `MCPClient.enhance_content_with_context` (`mcp_client.py:72-97`): returns
the server body on 200, and `create_fallback_enhancement` on any non-200
status or exception. -/
def enhance_content_with_context (content _topic : String)
    (net : HTTPOutcome MCPEnhanceResult) : MCPEnhanceResult :=
  match net with
  | .ok body => body
  | .badStatus => create_fallback_enhancement content _topic
  | .exn => create_fallback_enhancement content _topic

/-- `MCPClient.create_fallback_hashtags` (`mcp_client.py:405-417`). -/
def create_fallback_hashtags (topic : String) : List String :=
  let lower := pyLower topic
  let base := ["#" ++ removeSpaces topic, "#Technology", "#Innovation",
               "#DigitalTransformation"]
  let base :=
    if pyInStr "ai" lower || pyInStr "artificial intelligence" lower then
      base ++ ["#AI", "#MachineLearning", "#ArtificialIntelligence", "#TechTrends"]
    else if pyInStr "blockchain" lower then
      base ++ ["#Blockchain", "#Web3", "#Cryptocurrency", "#DeFi"]
    else if pyInStr "cloud" lower then
      base ++ ["#Cloud", "#AWS", "#Azure", "#DevOps"]
    else base
  base.take 10

/-- `MCPClient.generate_hashtags` (`mcp_client.py:205-230`): the hashtags of
the server on 200, else `create_fallback_hashtags`. -/
def generate_hashtags (_content topic : String)
    (net : HTTPOutcome (List String)) : List String :=
  match net with
  | .ok hs => hs
  | .badStatus => create_fallback_hashtags topic
  | .exn => create_fallback_hashtags topic

/-- Result dict of `LinkedInPoster.post_*`: the `success` flag and optional
`error` message consulted by the scheduler. -/
structure PostResult where
  success : Bool
  error : Option String
deriving Repr, DecidableEq

/-- The collaborator behaviour one article run observes: the LLM call, the
two MCP calls, and the LinkedIn publisher. -/
structure ArticleEnv where
  llm : LLMOutcome
  enhanceNet : HTTPOutcome MCPEnhanceResult
  hashtagNet : HTTPOutcome (List String)
  post : ArticleContent → PostResult

/-- Python `list(set(a + b))`: duplicate removal on the merged hashtag lists.
The set iteration order of Python is implementation-defined; the embedding keeps
first occurrences.  Every theorem below that depends on this merge is
insensitive to the ordering. -/
def mergeDedup (a b : List String) : List String := (a ++ b).dedup

/-- The artifact `LinkedInScheduler.create_and_post_article`
(`scheduler.py:172-201`) hands to `LinkedInPoster.post_article`: the
generated article, with its `introduction` overwritten by the truthy
`enhanced_content` of the MCP enhancement of `str(article_content)`, and its
`hashtags` replaced by the deduplicated merge with the MCP hashtags, capped
at 10. -/
def article_pipeline_artifact (topic : String) (sources : List Source)
    (env : ArticleEnv) : ArticleContent :=
  let article_content := generate_article_content sources topic env.llm
  let enhanced := enhance_content_with_context (pyStrArticle article_content) topic env.enhanceNet
  let article_content :=
    if pyTruthy enhanced.enhanced_content then
      { article_content with introduction := enhanced.enhanced_content.getD "" }
    else article_content
  let mcp_hashtags := generate_hashtags article_content.introduction topic env.hashtagNet
  let all_hashtags := mergeDedup article_content.hashtags mcp_hashtags
  { article_content with hashtags := all_hashtags.take 10 }

/-- `LinkedInScheduler.create_and_post_article` (`scheduler.py:172-201`):
posts the final artifact and returns the result dict of the publisher. -/
def create_and_post_article (topic : String) (sources : List Source)
    (env : ArticleEnv) : PostResult :=
  env.post (article_pipeline_artifact topic sources env)

namespace Sched2

/-! ## `src/scheduler.py`: APScheduler job table -/

/-- One entry of the APScheduler job table as used by
`src/scheduler.py`: its id, the topic argument, the cron schedule string,
and whether it is paused (APScheduler represents a paused job by a cleared
`next_run_time`; only the paused/active distinction matters here). -/
structure SchedJob where
  id : String
  topic : String
  sched : String
  paused : Bool
deriving Repr, DecidableEq

/-- The job id derived from a topic by
`LinkedInScheduler.schedule_daily_posting` (`src/scheduler.py:87`):
`f"daily_post_{topic.replace(' ', '_')}"`. -/
def daily_job_id (topic : String) : String := "daily_post_" ++ spacesToUnderscores topic

/-- Splitter for Python `str.split()` with no argument: break at whitespace
runs, discarding empty pieces; `cur` holds the current field reversed. -/
def wsFieldsAux : List Char → List Char → List String
  | [], cur => if cur.isEmpty then [] else [String.mk cur.reverse]
  | c :: t, cur =>
    if c.isWhitespace then
      if cur.isEmpty then wsFieldsAux t [] else String.mk cur.reverse :: wsFieldsAux t []
    else wsFieldsAux t (c :: cur)

/-- Python `schedule.split()`: split on whitespace runs, discarding empties. -/
def cronFields (sched : String) : List String := wsFieldsAux sched.data []

/-- `scheduler.add_job(..., id=job_id, replace_existing=True)`
(`src/scheduler.py:106-113`): APScheduler replaces the job that already
carries this id, and otherwise appends a new one. -/
def add_job_replace (jobs : List SchedJob) (j : SchedJob) : List SchedJob :=
  if jobs.any (fun k => k.id == j.id) then
    jobs.map (fun k => if k.id == j.id then j else k)
  else jobs ++ [j]

/-- `LinkedInScheduler.schedule_daily_posting` (`src/scheduler.py:84-121`):
validates that the cron string has five fields (raising `ValueError`
otherwise), then adds the job with `replace_existing=True` and returns the
topic-derived job id. -/
def schedule_daily_posting (jobs : List SchedJob) (topic sched : String) :
    Except String (List SchedJob × String) :=
  if (cronFields sched).length ≠ 5 then
    Except.error "Invalid cron schedule format"
  else
    let job_id := daily_job_id topic
    Except.ok
      (add_job_replace jobs
        { id := job_id, topic := topic, sched := sched, paused := false },
       job_id)

/-- `LinkedInScheduler.get_scheduled_jobs` (`src/scheduler.py:260-279`): one
info record per job in the table (id, name/topic, trigger). -/
def get_scheduled_jobs (jobs : List SchedJob) : List (String × String × String) :=
  jobs.map (fun j => (j.id, j.topic, j.sched))

/-- Result of the LinkedIn publish call inside
`generate_and_post_content`: a response with `success` true and a post id,
or one with `success` false and an error message (authentication failures
included — `LinkedInAPI` returns them as failed responses). -/
inductive PublishOutcome
  | success (post_id : String)
  | failure (msg : String)
deriving Repr, DecidableEq

/-- The externally visible effect of one run (what the method does besides
returning: logging and, on success, the MCP history store). -/
inductive RunEffect
  | connectionFailedLogged
  | posted (post_id : String)
  | failureLogged (msg : String)
deriving Repr, DecidableEq

/-- `LinkedInScheduler.generate_and_post_content` (`src/scheduler.py:149-203`):
checks the API connection, generates and posts content, and logs the result.
No branch of the method touches the job table of the scheduler: failures —
authentication errors included — are only logged. -/
def generate_and_post_content (jobs : List SchedJob) (connOk : Bool)
    (outcome : PublishOutcome) : List SchedJob × RunEffect :=
  if connOk = false then (jobs, RunEffect.connectionFailedLogged)
  else
    match outcome with
    | .success pid => (jobs, RunEffect.posted pid)
    | .failure msg => (jobs, RunEffect.failureLogged msg)

/-- The job table after a finite sequence of runs, each with its connection
flag and publish outcome. -/
def runs (jobs : List SchedJob) (rs : List (Bool × PublishOutcome)) : List SchedJob :=
  rs.foldl (fun js r => (generate_and_post_content js r.1 r.2).1) jobs

/-- `LinkedInScheduler.pause_job` (`src/scheduler.py:238-247`): the explicit
management call that pauses the job with the given id. -/
def pause_job (jobs : List SchedJob) (job_id : String) : List SchedJob :=
  jobs.map (fun j => if j.id == job_id then { j with paused := true } else j)

end Sched2

/-! ## Decidability of `Except` results (used to evaluate concrete runs) -/

deriving instance DecidableEq for Except

/-! ## Concrete fixtures used by witnesses and counterexamples -/

/-- A rotation state with the default topics and content types of
`config.py`. -/
def c1_state : Sched.SchedulerState :=
  { topics := ["artificial intelligence", "machine learning", "technology trends"]
    content_types := ["article", "slide", "graph"]
    topic_index := 0
    content_type_index := 0 }

/-- Starting state for the C2 witness. -/
def c2_state : Sched.SchedulerState :=
  { topics := ["artificial intelligence", "machine learning"]
    content_types := ["article", "slide", "graph"]
    topic_index := 1
    content_type_index := 2 }

/-- An operation sequence exercising all four rotation operations. -/
def c2_ops : List Sched.RotOp :=
  [Sched.RotOp.addTopic "blockchain", Sched.RotOp.rotateTopic,
   Sched.RotOp.removeTopic "machine learning", Sched.RotOp.rotateContentType,
   Sched.RotOp.rotateTopic, Sched.RotOp.removeTopic "blockchain"]

/-- A state whose topics list holds exactly one topic. -/
def c3_state : Sched.SchedulerState :=
  { topics := ["artificial intelligence"]
    content_types := ["article", "slide", "graph"]
    topic_index := 0
    content_type_index := 0 }

/-- Collaborators for the C4 witness: no sources are found, the LLM call
raises, the MCP server is down, and the publisher accepts. -/
def c4_env : ArticleEnv :=
  { llm := LLMOutcome.exn
    enhanceNet := HTTPOutcome.exn
    hashtagNet := HTTPOutcome.exn
    post := fun _ => { success := true, error := none } }

/-- Collaborators for C5: the enhancement call raises (timeout/service
down), as do the other MCP calls and the LLM. -/
def c5_env : ArticleEnv :=
  { llm := LLMOutcome.exn
    enhanceNet := HTTPOutcome.exn
    hashtagNet := HTTPOutcome.exn
    post := fun _ => { success := false, error := some "publish failed" } }

/-- State for the C6 counterexample. -/
def c6_state : Sched.SchedulerState :=
  { topics := ["artificial intelligence", "machine learning"]
    content_types := ["article", "slide", "graph"]
    topic_index := 0
    content_type_index := 0 }

/-- Persisted config matching `c6_state`. -/
def c6_config : Sched.PersistedConfig :=
  { topics := ["artificial intelligence", "machine learning"]
    content_types := ["article", "slide", "graph"]
    current_topic := "artificial intelligence" }

/-- A job table with the single job `J`, active. -/
def c8_jobs : List Sched2.SchedJob :=
  [{ id := "daily_post_J", topic := "J", sched := "0 9 * * *", paused := false }]

/-- One run whose publish step fails with an authentication error. -/
def c8_auth_run : Bool × Sched2.PublishOutcome :=
  (true, Sched2.PublishOutcome.failure "401 Unauthorized: invalid access token")

/-- The job the C9 witness schedules. -/
def c9_job : Sched2.SchedJob :=
  { id := "daily_post_ai_ethics", topic := "ai ethics", sched := "0 9 * * *",
    paused := false }

namespace Sched

/-! ## Helper lemmas: rotation state -/

theorem get_current_topic_state_of_lt {s : SchedulerState}
    (h : s.topic_index < s.topics.length) : (get_current_topic s).2 = s := by
  unfold get_current_topic
  simp [Nat.not_le.mpr h]

theorem get_current_content_type_state_of_lt {s : SchedulerState}
    (h : s.content_type_index < s.content_types.length) :
    (get_current_content_type s).2 = s := by
  unfold get_current_content_type
  simp [Nat.not_le.mpr h]

theorem rotate_topic_content_type_index (s : SchedulerState) :
    ((rotate_topic s).1).content_type_index = s.content_type_index := by
  unfold rotate_topic get_current_topic
  dsimp only
  split <;> rfl

theorem get_current_topic_mem {s : SchedulerState} (h : s.topics ≠ []) :
    (get_current_topic s).1 ∈ s.topics := by
  have hlen : 0 < s.topics.length := List.length_pos.mpr h
  by_cases hc : s.topics.length ≤ s.topic_index
  · simp only [get_current_topic, if_pos hc]
    rw [show ({ s with topic_index := 0 } : SchedulerState).topics = s.topics from rfl,
      List.getD_eq_getElem _ _ hlen]
    exact List.getElem_mem _
  · simp only [get_current_topic, if_neg hc]
    rw [List.getD_eq_getElem _ _ (Nat.not_le.mp hc)]
    exact List.getElem_mem _

theorem get_current_content_type_mem {s : SchedulerState}
    (h : s.content_types ≠ []) :
    (get_current_content_type s).1 ∈ s.content_types := by
  have hlen : 0 < s.content_types.length := List.length_pos.mpr h
  by_cases hc : s.content_types.length ≤ s.content_type_index
  · simp only [get_current_content_type, if_pos hc]
    rw [show ({ s with content_type_index := 0 } : SchedulerState).content_types
          = s.content_types from rfl,
      List.getD_eq_getElem _ _ hlen]
    exact List.getElem_mem _
  · simp only [get_current_content_type, if_neg hc]
    rw [List.getD_eq_getElem _ _ (Nat.not_le.mp hc)]
    exact List.getElem_mem _

theorem applyOp_topics_ne_nil {s : SchedulerState} (h : s.topics ≠ [])
    (op : RotOp) : (applyOp s op).topics ≠ [] := by
  cases op with
  | addTopic t =>
    simp only [applyOp, add_topic]
    split
    · exact h
    · simp
  | removeTopic t =>
    simp only [applyOp, remove_topic]
    split
    · next hcond =>
      have h2 : 1 < s.topics.length := hcond.2
      have h3 : (s.topics.erase t).length = s.topics.length - 1 :=
        List.length_erase_of_mem hcond.1
      have h4 : 0 < (s.topics.erase t).length := by omega
      exact List.length_pos.mp h4
    · exact h
  | rotateContentType => simpa [applyOp, rotate_content_type] using h
  | rotateTopic =>
    simp only [applyOp, rotate_topic, get_current_topic]
    split <;> simpa using h

theorem applyOp_content_types (s : SchedulerState) (op : RotOp) :
    (applyOp s op).content_types = s.content_types := by
  cases op with
  | addTopic t => simp only [applyOp, add_topic]; split <;> rfl
  | removeTopic t => simp only [applyOp, remove_topic]; split <;> rfl
  | rotateContentType => rfl
  | rotateTopic =>
    simp only [applyOp, rotate_topic, get_current_topic]
    split <;> rfl

theorem applyOps_invariant {s : SchedulerState} (ops : List RotOp)
    (ht : s.topics ≠ []) (hc : s.content_types ≠ []) :
    (applyOps s ops).topics ≠ [] ∧ (applyOps s ops).content_types ≠ [] := by
  induction ops generalizing s with
  | nil => exact ⟨ht, hc⟩
  | cons op rest ih =>
    exact ih (applyOp_topics_ne_nil ht op)
      (by rw [applyOp_content_types]; exact hc)

end Sched

namespace Sched2

/-! ## Helper lemmas: job table -/

theorem generate_and_post_content_jobs (jobs : List SchedJob) (b : Bool)
    (o : PublishOutcome) : (generate_and_post_content jobs b o).1 = jobs := by
  cases b <;> cases o <;> rfl

theorem runs_eq (jobs : List SchedJob) (rs : List (Bool × PublishOutcome)) :
    runs jobs rs = jobs := by
  induction rs generalizing jobs with
  | nil => rfl
  | cons r rest ih =>
    show runs (generate_and_post_content jobs r.1 r.2).1 rest = jobs
    rw [generate_and_post_content_jobs]
    exact ih jobs

theorem pause_job_all (jobs : List SchedJob) (jid : String) :
    (pause_job jobs jid).all (fun j => !(j.id == jid) || j.paused) = true := by
  rw [List.all_eq_true]
  intro j hj
  simp only [pause_job, List.mem_map] at hj
  obtain ⟨k, hk, rfl⟩ := hj
  by_cases hb : (k.id == jid) = true
  · simp [hb]
  · simp [hb]

theorem replace_fn_id (j k : SchedJob) :
    ((if k.id == j.id then j else k).id == j.id) = (k.id == j.id) := by
  by_cases h : (k.id == j.id) = true <;> simp [h]

theorem replace_fn_idem (j k : SchedJob) :
    (if (if k.id == j.id then j else k).id == j.id then j
     else if k.id == j.id then j else k) = if k.id == j.id then j else k := by
  by_cases h : (k.id == j.id) = true <;> simp [h]

theorem add_job_replace_any (l : List SchedJob) (j : SchedJob) :
    (add_job_replace l j).any (fun k => k.id == j.id) = true := by
  unfold add_job_replace
  by_cases hex : l.any (fun k => k.id == j.id) = true
  · rw [if_pos hex]
    rw [List.any_map]
    rw [List.any_eq_true] at hex ⊢
    obtain ⟨k, hk, hkid⟩ := hex
    exact ⟨k, hk, by simp [Function.comp, replace_fn_id, hkid]⟩
  · rw [if_neg hex, List.any_append]
    simp

theorem add_job_replace_idem (l : List SchedJob) (j : SchedJob) :
    add_job_replace (add_job_replace l j) j = add_job_replace l j := by
  have hany := add_job_replace_any l j
  unfold add_job_replace
  rw [if_pos]
  case hc =>
    exact hany
  by_cases hex : l.any (fun k => k.id == j.id) = true
  · rw [if_pos hex, List.map_map]
    apply List.map_congr_left
    intro k _
    exact replace_fn_idem j k
  · rw [if_neg hex, List.map_append]
    simp only [List.any_eq_true, not_exists, not_and] at hex
    have h1 : l.map (fun k => if k.id == j.id then j else k) = l := by
      conv_rhs => rw [← List.map_id l]
      apply List.map_congr_left
      intro k hk
      have hkk := hex k hk
      simp only [Bool.not_eq_true] at hkk
      simp [hkk]
    rw [h1]
    simp

theorem filter_id_singleton (l : List SchedJob) (j : SchedJob)
    (hnd : (l.map SchedJob.id).Nodup)
    (hex : l.any (fun k => k.id == j.id) = true) :
    (l.filter (fun k => k.id == j.id)).length = 1 := by
  induction l with
  | nil => simp at hex
  | cons a t ih =>
    simp only [List.map_cons, List.nodup_cons] at hnd
    obtain ⟨hna, hndt⟩ := hnd
    by_cases ha : (a.id == j.id) = true
    · have haid : a.id = j.id := eq_of_beq ha
      have hft : t.filter (fun k => k.id == j.id) = [] := by
        rw [List.filter_eq_nil_iff]
        intro k hk
        have hkmem : k.id ∈ t.map SchedJob.id := List.mem_map_of_mem SchedJob.id hk
        have hne : (k.id == j.id) = false := by
          rw [beq_eq_false_iff_ne]
          intro he
          rw [he, ← haid] at hkmem
          exact hna hkmem
        simp [hne]
      simp [List.filter_cons, ha, hft]
    · have hex2 : t.any (fun k => k.id == j.id) = true := by
        simpa [List.any_cons, ha] using hex
      simp [List.filter_cons, ha, ih hndt hex2]

theorem add_job_replace_nodup (l : List SchedJob) (j : SchedJob)
    (hnd : (l.map SchedJob.id).Nodup) :
    ((add_job_replace l j).map SchedJob.id).Nodup := by
  unfold add_job_replace
  by_cases hex : l.any (fun k => k.id == j.id) = true
  · rw [if_pos hex, List.map_map]
    have hm : (List.map (SchedJob.id ∘ fun k => if k.id == j.id then j else k) l)
        = l.map SchedJob.id := by
      apply List.map_congr_left
      intro k _
      by_cases h : (k.id == j.id) = true
      · simp [Function.comp, h, (eq_of_beq h).symm]
      · simp [Function.comp, h]
    rw [hm]
    exact hnd
  · rw [if_neg hex, List.map_append, List.nodup_append]
    simp only [List.any_eq_true, not_exists, not_and] at hex
    refine ⟨hnd, by simp, ?_⟩
    intro x hxl hxr
    simp only [List.map_cons, List.map_nil, List.mem_singleton] at hxr
    simp only [List.mem_map] at hxl
    obtain ⟨k, hk, hkx⟩ := hxl
    have hne := hex k hk
    rw [Bool.not_eq_true, beq_eq_false_iff_ne] at hne
    exact hne (hkx.trans hxr)

end Sched2

/-! ## Helper lemmas: article pipeline -/

theorem pyStrArticle_ne_empty (a : ArticleContent) : pyStrArticle a ≠ "" := by
  unfold pyStrArticle
  intro h
  have hd := congrArg String.data h
  simp [String.data_append] at hd

theorem pyTruthy_pyStrArticle (a : ArticleContent) :
    pyTruthy (some (pyStrArticle a)) = true := by
  simp [pyTruthy, pyStrArticle_ne_empty a]

theorem enhance_fallback_on_failure (c t : String)
    (net : HTTPOutcome MCPEnhanceResult)
    (h : net = HTTPOutcome.badStatus ∨ net = HTTPOutcome.exn) :
    enhance_content_with_context c t net = create_fallback_enhancement c t := by
  rcases h with h | h <;> rw [h] <;> rfl

theorem article_pipeline_headline (topic : String) (sources : List Source)
    (env : ArticleEnv) :
    (article_pipeline_artifact topic sources env).headline
      = (generate_article_content sources topic env.llm).headline := by
  unfold article_pipeline_artifact
  dsimp only
  split <;> rfl

theorem append_empty_str (s : String) : s ++ "" = s := by
  apply String.ext
  simp [String.data_append]

/-! ## Claims -/

/-- C1: for every run of the posting job (with in-range cursors, the
invariant of the data model), if the publish step reports failure the whole
rotation state — in particular both cursors — is unchanged; if it reports
success the content-type cursor is advanced by exactly one modulo the length
of the content-type list, whatever the topic-rotation coin shows. -/
theorem C1_failed_run_keeps_cursors_success_advances_content_type
    (s : Sched.SchedulerState) (coin : Bool)
    (ht : s.topic_index < s.topics.length)
    (hc : s.content_type_index < s.content_types.length) :
    (Sched.run_posting_job s false coin).1 = s ∧
    (Sched.run_posting_job s true coin).1.content_type_index
      = (s.content_type_index + 1) % s.content_types.length := by
  simp only [Sched.run_posting_job, Sched.get_current_topic_state_of_lt ht,
    Sched.get_current_content_type_state_of_lt hc]
  refine ⟨rfl, ?_⟩
  cases coin <;>
    simp [Sched.rotate_content_type, Sched.rotate_topic_content_type_index]

/-- C1 witness: the theorem instantiated at the default configuration. -/
theorem C1_witness :
    c1_state.topic_index < c1_state.topics.length ∧
    c1_state.content_type_index < c1_state.content_types.length ∧
    ((Sched.run_posting_job c1_state false true).1 = c1_state ∧
     (Sched.run_posting_job c1_state true true).1.content_type_index
       = (c1_state.content_type_index + 1) % c1_state.content_types.length) :=
  ⟨by decide, by decide,
   C1_failed_run_keeps_cursors_success_advances_content_type c1_state true
     (by decide) (by decide)⟩

/-- C2: starting from non-empty topics and content-types lists, after any
finite sequence of add-topic, remove-topic, rotate-content-type and
rotate-topic operations, the current topic is a member of the topics list
and the current content type is a member of the content-types list. -/
theorem C2_current_selection_is_member
    (s : Sched.SchedulerState) (ops : List Sched.RotOp)
    (ht : s.topics ≠ []) (hc : s.content_types ≠ []) :
    (Sched.get_current_topic (Sched.applyOps s ops)).1
      ∈ (Sched.applyOps s ops).topics ∧
    (Sched.get_current_content_type (Sched.applyOps s ops)).1
      ∈ (Sched.applyOps s ops).content_types := by
  obtain ⟨h1, h2⟩ := Sched.applyOps_invariant ops ht hc
  exact ⟨Sched.get_current_topic_mem h1, Sched.get_current_content_type_mem h2⟩

/-- C2 witness: the theorem instantiated at a six-operation sequence. -/
theorem C2_witness :
    c2_state.topics ≠ [] ∧ c2_state.content_types ≠ [] ∧
    ((Sched.get_current_topic (Sched.applyOps c2_state c2_ops)).1
       ∈ (Sched.applyOps c2_state c2_ops).topics ∧
     (Sched.get_current_content_type (Sched.applyOps c2_state c2_ops)).1
       ∈ (Sched.applyOps c2_state c2_ops).content_types) :=
  ⟨by decide, by decide,
   C2_current_selection_is_member c2_state c2_ops (by decide) (by decide)⟩

/-- C3 counterexample: with exactly one topic, `remove_topic` does not fail
with `LastTopicError` (nothing in `scheduler.py` can produce that error; the
call returns normally). -/
theorem C3_counterexample :
    Sched.remove_topicE c3_state "artificial intelligence"
      ≠ Except.error Sched.SchedulerError.lastTopicError := by
  decide

/-- C3 amended: when the topics list holds exactly one topic, `remove_topic`
on that topic is a silent no-op — it raises no error, leaves the topics list
and both cursors unchanged, and persists nothing. -/
theorem C3_amended_remove_last_topic_silent_noop
    (s : Sched.SchedulerState) (t : String) (h : s.topics = [t]) :
    Sched.remove_topicE s t = Except.ok (s, []) := by
  have hns : ¬(t ∈ s.topics ∧ 1 < s.topics.length) := by rw [h]; simp
  simp [Sched.remove_topicE, Sched.remove_topic, hns]

/-- C3 witness: the amended theorem instantiated at the singleton state. -/
theorem C3_witness :
    c3_state.topics = ["artificial intelligence"] ∧
    Sched.remove_topicE c3_state "artificial intelligence"
      = Except.ok (c3_state, []) :=
  ⟨rfl, C3_amended_remove_last_topic_silent_noop c3_state
    "artificial intelligence" rfl⟩

/-- C4: when the gathering step returns zero sources and content synthesis
raises, the run still reaches the publishing step with the templated
fallback artifact: its headline is `"Latest Insights on " ++ topic`, which
contains the topic string, the publisher is called on exactly that artifact,
and the overall result is whatever the publisher returns. -/
theorem C4_fallback_artifact_reaches_publisher
    (topic : String) (sources : List Source) (env : ArticleEnv)
    (_hs : sources = []) (hllm : env.llm = LLMOutcome.exn) :
    (article_pipeline_artifact topic sources env).headline
      = "Latest Insights on " ++ topic ∧
    (∃ pre suf, (article_pipeline_artifact topic sources env).headline
      = pre ++ topic ++ suf) ∧
    create_and_post_article topic sources env
      = env.post (article_pipeline_artifact topic sources env) ∧
    (create_and_post_article topic sources env).success
      = (env.post (article_pipeline_artifact topic sources env)).success := by
  have hh : (article_pipeline_artifact topic sources env).headline
      = "Latest Insights on " ++ topic := by
    rw [article_pipeline_headline, hllm]
    rfl
  refine ⟨hh, ⟨"Latest Insights on ", "", ?_⟩, rfl, rfl⟩
  rw [hh, append_empty_str]

/-- C4 witness: the theorem instantiated at topic "quantum computing" with
zero sources, a raising synthesizer, and an accepting publisher. -/
theorem C4_witness :
    ([] : List Source) = [] ∧ c4_env.llm = LLMOutcome.exn ∧
    ((article_pipeline_artifact "quantum computing" [] c4_env).headline
       = "Latest Insights on " ++ "quantum computing" ∧
     (∃ pre suf, (article_pipeline_artifact "quantum computing" [] c4_env).headline
       = pre ++ "quantum computing" ++ suf) ∧
     create_and_post_article "quantum computing" [] c4_env
       = c4_env.post (article_pipeline_artifact "quantum computing" [] c4_env) ∧
     (create_and_post_article "quantum computing" [] c4_env).success
       = (c4_env.post (article_pipeline_artifact "quantum computing" [] c4_env)).success) :=
  ⟨rfl, rfl,
   C4_fallback_artifact_reaches_publisher "quantum computing" [] c4_env rfl rfl⟩

/-- C5 counterexample: when the enhancement call raises, the artifact handed
to the publisher is not the unmodified synthesized artifact (its
introduction has been replaced by the stringified artifact and its hashtags
merged with the MCP fallback hashtags). -/
theorem C5_counterexample :
    article_pipeline_artifact "quantum computing" [] c5_env
      ≠ generate_article_content [] "quantum computing" c5_env.llm :=
  fun h => absurd (congrArg ArticleContent.introduction h) (by decide)

/-- C5 amended: when the context-enhancement call fails (non-200 status or
exception), the artifact handed to the publisher keeps the headline, main
points, takeaways and conclusion of the synthesized artifact, but its
introduction is replaced by the fallback enhancement content — the Python
`str()` of the synthesized artifact dict — and the enhancement failure does
not change the outcome classification: the result of the run is exactly the
verdict of the publisher on that artifact. -/
theorem C5_amended_enhancement_failure_still_modifies_artifact
    (topic : String) (sources : List Source) (env : ArticleEnv)
    (henh : env.enhanceNet = HTTPOutcome.badStatus ∨
            env.enhanceNet = HTTPOutcome.exn) :
    (article_pipeline_artifact topic sources env).introduction
      = pyStrArticle (generate_article_content sources topic env.llm) ∧
    (article_pipeline_artifact topic sources env).headline
      = (generate_article_content sources topic env.llm).headline ∧
    (article_pipeline_artifact topic sources env).main_points
      = (generate_article_content sources topic env.llm).main_points ∧
    (article_pipeline_artifact topic sources env).takeaways
      = (generate_article_content sources topic env.llm).takeaways ∧
    (article_pipeline_artifact topic sources env).conclusion
      = (generate_article_content sources topic env.llm).conclusion ∧
    create_and_post_article topic sources env
      = env.post (article_pipeline_artifact topic sources env) := by
  have hfb := enhance_fallback_on_failure
    (pyStrArticle (generate_article_content sources topic env.llm)) topic
    env.enhanceNet henh
  refine ⟨?_, ?_, ?_, ?_, ?_, rfl⟩ <;>
    simp only [article_pipeline_artifact, hfb, create_fallback_enhancement,
      pyTruthy_pyStrArticle, if_true, Option.getD_some]

/-- C5 witness: the amended theorem instantiated at a raising enhancement
service. -/
theorem C5_witness :
    (c5_env.enhanceNet = HTTPOutcome.badStatus ∨
     c5_env.enhanceNet = HTTPOutcome.exn) ∧
    ((article_pipeline_artifact "quantum computing" [] c5_env).introduction
       = pyStrArticle (generate_article_content [] "quantum computing" c5_env.llm) ∧
     (article_pipeline_artifact "quantum computing" [] c5_env).headline
       = (generate_article_content [] "quantum computing" c5_env.llm).headline ∧
     (article_pipeline_artifact "quantum computing" [] c5_env).main_points
       = (generate_article_content [] "quantum computing" c5_env.llm).main_points ∧
     (article_pipeline_artifact "quantum computing" [] c5_env).takeaways
       = (generate_article_content [] "quantum computing" c5_env.llm).takeaways ∧
     (article_pipeline_artifact "quantum computing" [] c5_env).conclusion
       = (generate_article_content [] "quantum computing" c5_env.llm).conclusion ∧
     create_and_post_article "quantum computing" [] c5_env
       = c5_env.post (article_pipeline_artifact "quantum computing" [] c5_env)) :=
  ⟨Or.inr rfl,
   C5_amended_enhancement_failure_still_modifies_artifact "quantum computing" []
     c5_env (Or.inr rfl)⟩

/-- C6 counterexample: `rotate_content_type` advances the in-memory cursor
but issues no persist call, so restarting from the persisted config does not
resume the mutated rotation state. -/
theorem C6_counterexample :
    Sched.restart (Sched.persistAfter c6_config (Sched.rotate_content_type c6_state).2)
      ≠ (Sched.rotate_content_type c6_state).1 := by
  decide

/-- C6 amended: the rotation operations persist only the topics list
(`add_topic`/`remove_topic`) and the current-topic string (`rotate_topic`);
`rotate_content_type` persists nothing, neither cursor index is ever
written to stable storage, and a restart reinitialises both cursors to 0
regardless of what was persisted. -/
theorem C6_amended_cursors_never_persisted
    (s : Sched.SchedulerState) (t : String) (p : Sched.PersistedConfig)
    (ws : List Sched.ConfigWrite) :
    (Sched.rotate_content_type s).2 = [] ∧
    (∃ nt, (Sched.rotate_topic s).2 = [Sched.ConfigWrite.setCurrentTopic nt]) ∧
    ((Sched.add_topic s t).2 =
      if t ∈ s.topics then []
      else [Sched.ConfigWrite.setTopics (s.topics ++ [t])]) ∧
    ((Sched.remove_topic s t).2 =
      if t ∈ s.topics ∧ 1 < s.topics.length then
        [Sched.ConfigWrite.setTopics (s.topics.erase t)]
      else []) ∧
    (Sched.restart (Sched.persistAfter p ws)).topic_index = 0 ∧
    (Sched.restart (Sched.persistAfter p ws)).content_type_index = 0 := by
  refine ⟨rfl, ⟨_, rfl⟩, ?_, ?_, rfl, rfl⟩
  · simp only [Sched.add_topic]
    split <;> rfl
  · simp only [Sched.remove_topic]
    split <;> rfl

/-- C8 counterexample: three consecutive runs whose publish step fails with
an authentication error leave job `J` unpaused — no automatic pause
transition exists. -/
theorem C8_counterexample :
    (Sched2.runs c8_jobs [c8_auth_run, c8_auth_run, c8_auth_run]).map
      Sched2.SchedJob.paused = [false] := by
  decide

/-- C8 amended: publisher failures — authentication errors included — are
only logged: any finite sequence of runs leaves the job table unchanged, and
a job becomes paused only through the explicit `pause_job` management
call. -/
theorem C8_amended_failures_only_logged_pause_is_explicit
    (jobs : List Sched2.SchedJob) (rs : List (Bool × Sched2.PublishOutcome))
    (jid : String) :
    Sched2.runs jobs rs = jobs ∧
    (Sched2.pause_job jobs jid).all
      (fun j => !(j.id == jid) || j.paused) = true :=
  ⟨Sched2.runs_eq jobs rs, Sched2.pause_job_all jobs jid⟩

/-- C9: scheduling is idempotent per topic: if scheduling a topic on a job
table with pairwise-distinct job ids yields table `jobs1` and id `jid`, then
an identical second call returns exactly the same table (so the length of
`get_scheduled_jobs` is invariant under repeated identical calls, being the
table length), and `jobs1` holds exactly one job with the topic-derived
id. -/
theorem C9_schedule_idempotent_one_job_per_topic
    (jobs jobs1 : List Sched2.SchedJob) (topic sched jid : String)
    (hnd : (jobs.map Sched2.SchedJob.id).Nodup)
    (h1 : Sched2.schedule_daily_posting jobs topic sched
      = Except.ok (jobs1, jid)) :
    Sched2.schedule_daily_posting jobs1 topic sched = Except.ok (jobs1, jid) ∧
    (Sched2.get_scheduled_jobs jobs1).length = jobs1.length ∧
    (jobs1.filter (fun k => k.id == jid)).length = 1 := by
  unfold Sched2.schedule_daily_posting at h1 ⊢
  by_cases hlen : (Sched2.cronFields sched).length = 5
  · rw [if_neg (not_not_intro hlen)] at h1
    simp only [Except.ok.injEq, Prod.mk.injEq] at h1
    obtain ⟨hj, hid⟩ := h1
    subst hj
    subst hid
    rw [if_neg (not_not_intro hlen)]
    refine ⟨?_, List.length_map _ _, ?_⟩
    · simp only [Sched2.add_job_replace_idem]
    · exact Sched2.filter_id_singleton
        (Sched2.add_job_replace jobs
          { id := Sched2.daily_job_id topic, topic := topic, sched := sched,
            paused := false })
        { id := Sched2.daily_job_id topic, topic := topic, sched := sched,
          paused := false }
        (Sched2.add_job_replace_nodup jobs _ hnd)
        (Sched2.add_job_replace_any jobs _)
  · rw [if_pos hlen] at h1
    exact absurd h1 (by simp)

/-- C9 witness: the theorem instantiated at an empty job table, topic
"ai ethics" and a five-field cron schedule. -/
theorem C9_witness :
    (([] : List Sched2.SchedJob).map Sched2.SchedJob.id).Nodup ∧
    Sched2.schedule_daily_posting [] "ai ethics" "0 9 * * *"
      = Except.ok ([c9_job], "daily_post_ai_ethics") ∧
    (Sched2.schedule_daily_posting [c9_job] "ai ethics" "0 9 * * *"
       = Except.ok ([c9_job], "daily_post_ai_ethics") ∧
     (Sched2.get_scheduled_jobs [c9_job]).length = [c9_job].length ∧
     ([c9_job].filter (fun k => k.id == "daily_post_ai_ethics")).length = 1) :=
  ⟨by decide, by decide,
   C9_schedule_idempotent_one_job_per_topic [] [c9_job] "ai ethics" "0 9 * * *"
     "daily_post_ai_ethics" (by decide) (by decide)⟩

/-- C10: for every article run — whatever the LLM, the MCP enhancement
service, the MCP hashtag service and the publisher return — the hashtags
list of the artifact handed to the publisher has at most 10 elements. -/
theorem C10_hashtags_at_most_ten (topic : String) (sources : List Source)
    (env : ArticleEnv) :
    (article_pipeline_artifact topic sources env).hashtags.length ≤ 10 := by
  show ((mergeDedup _ _).take 10).length ≤ 10
  rw [List.length_take]
  exact min_le_left _ _
